import Mathlib

/-!
Verification of the trading dashboard's configuration-sync and trade-ledger
subsystem (embedded from src/database.py, src/main.py and src/app.py).
Prices and monetary amounts are modelled as rationals, timestamps as abstract
natural numbers, and SQL row updates as record updates on an explicit state.
-/

/-- Python str.lower() as used on side/order-type strings: lowercases every
character (structural form of String.map Char.toLower). -/
def strLower (s : String) : String := ⟨s.data.map Char.toLower⟩

/-- Trade status enum, matching class TradeStatus in src/database.py. -/
inductive TradeStatus
  | parsed
  | pending
  | active
  | closed
  | canceled
  | blocked
  | declined
deriving DecidableEq, Repr

/-- Trade outcome enum, matching class TradeOutcome in src/database.py. -/
inductive TradeOutcome
  | profit
  | loss
  | breakeven
  | canceled
  | blocked
deriving DecidableEq, Repr

/-- Instrument mapping, matching dataclass Instrument in src/database.py. -/
structure Instrument where
  logical : String
  broker_symbol : String
  pip_tolerance_pips : ℚ
deriving DecidableEq, Repr

/-- Final take-profit policy, matching dataclass FinalTPPolicy. -/
structure FinalTPPolicy where
  kind : String
  tp_index : Option Int
  rr_ratio : Option ℚ
deriving DecidableEq, Repr

/-- Risk-free (breakeven) policy, matching dataclass RiskFreePolicy. -/
structure RiskFreePolicy where
  kind : String
  tp_index : Option Int
  pips : Option ℚ
  percent : Option ℚ
  enabled : Bool
deriving DecidableEq, Repr

/-- Applicability flags of a cancel policy.  The source stores them as a dict
with exactly the keys now/limit/auto; every constructor in the source
populates all three, so they are modelled as a total record. -/
structure EnableForHint where
  now : Bool
  limit : Bool
  auto : Bool
deriving DecidableEq, Repr

/-- Cancel policy, matching dataclass CancelPolicy. -/
structure CancelPolicy where
  kind : String
  tp_index : Option Int
  percent : Option ℚ
  enable_for_hint : EnableForHint
  enabled : Bool
deriving DecidableEq, Repr

/-- Command-router configuration, matching dataclass CommandRouterConfig. -/
structure CommandRouterConfig where
  close_phrases : List String
  cancel_limit_phrases : List String
  riskfree_phrases : List String
  enable_close : Bool
  enable_cancel_limit : Bool
  enable_riskfree : Bool
deriving DecidableEq, Repr

/-- Circuit breaker configuration, matching dataclass CircuitBreaker. -/
structure CircuitBreaker where
  max_daily_trades : Int
  max_daily_loss_pct : ℚ
  enabled : Bool
deriving DecidableEq, Repr

/-- Trend filter configuration, matching dataclass TrendFilterConfig. -/
structure TrendFilterConfig where
  enabled : Bool
  swing_strength : Int
  min_swings_required : Int
  ema_period : Int
  candles_to_fetch : Int
  require_all_three : Bool
  log_details : Bool
deriving DecidableEq, Repr

/-- Full channel configuration, matching dataclass BotConfig in
src/database.py. -/
structure BotConfig where
  channel_key : String
  instruments : List Instrument
  risk_per_trade : ℚ
  risk_tolerance : ℚ
  final_tp_policy : FinalTPPolicy
  riskfree_policy : Option RiskFreePolicy
  cancel_policy : Option CancelPolicy
  commands : CommandRouterConfig
  circuit_breaker : CircuitBreaker
  trend_filter : TrendFilterConfig
  magic : Int
  max_slippage_points : Int
  trade_monitor_interval_sec : ℚ
  id : Option String
  telegram_id : Option Int
  is_active : Bool
deriving DecidableEq, Repr

/-- The stored rows for one channel: the channels row plus its sub-policy
rows (final_tp_policies, riskfree_policies, cancel_policies, command_configs,
circuit_breaker_configs, trend_filter_configs, instruments), as read back
through the channel_full_config view by ChannelRepository. -/
structure ChannelRows where
  id : String
  channel_key : String
  telegram_id : Option Int
  is_active : Bool
  risk_per_trade : ℚ
  risk_tolerance : ℚ
  magic_number : Int
  max_slippage_points : Int
  trade_monitor_interval_sec : ℚ
  ftp_kind : String
  ftp_tp_index : Option Int
  ftp_rr_ratio : Option ℚ
  rf_enabled : Bool
  rf_kind : String
  rf_tp_index : Option Int
  rf_pips : Option ℚ
  rf_percent : Option ℚ
  cn_enabled : Bool
  cn_kind : String
  cn_tp_index : Option Int
  cn_percent : Option ℚ
  cn_for_now : Bool
  cn_for_limit : Bool
  cn_for_auto : Bool
  cmd_enable_close : Bool
  cmd_enable_cancel_limit : Bool
  cmd_enable_riskfree : Bool
  cmd_close_phrases : List String
  cmd_cancel_limit_phrases : List String
  cmd_riskfree_phrases : List String
  cb_enabled : Bool
  cb_max_daily_trades : Int
  cb_max_daily_loss_pct : ℚ
  tf_enabled : Bool
  tf_swing_strength : Int
  tf_min_swings_required : Int
  tf_ema_period : Int
  tf_candles_to_fetch : Int
  tf_require_all_three : Bool
  tf_log_details : Bool
  instruments : List Instrument
deriving DecidableEq, Repr

/-- Effect of ChannelRepository._update_channel_config on the stored rows:
updates the channel row and every sub-policy row; the riskfree and cancel
rows are only touched when the corresponding policy object is present, and
the instruments rows are deleted and re-inserted. -/
def update_channel_config (st : ChannelRows) (config : BotConfig) : ChannelRows :=
  let st := { st with
    channel_key := config.channel_key
    risk_per_trade := config.risk_per_trade
    risk_tolerance := config.risk_tolerance
    magic_number := config.magic
    max_slippage_points := config.max_slippage_points
    trade_monitor_interval_sec := config.trade_monitor_interval_sec
    ftp_kind := config.final_tp_policy.kind
    ftp_tp_index := config.final_tp_policy.tp_index
    ftp_rr_ratio := config.final_tp_policy.rr_ratio }
  let st := match config.riskfree_policy with
    | none => st
    | some rf => { st with
        rf_enabled := rf.enabled
        rf_kind := rf.kind
        rf_tp_index := rf.tp_index
        rf_pips := rf.pips
        rf_percent := rf.percent }
  let st := match config.cancel_policy with
    | none => st
    | some cp => { st with
        cn_enabled := cp.enabled
        cn_kind := cp.kind
        cn_tp_index := cp.tp_index
        cn_percent := cp.percent
        cn_for_now := cp.enable_for_hint.now
        cn_for_limit := cp.enable_for_hint.limit
        cn_for_auto := cp.enable_for_hint.auto }
  { st with
    cmd_enable_close := config.commands.enable_close
    cmd_enable_cancel_limit := config.commands.enable_cancel_limit
    cmd_enable_riskfree := config.commands.enable_riskfree
    cmd_close_phrases := config.commands.close_phrases
    cmd_cancel_limit_phrases := config.commands.cancel_limit_phrases
    cmd_riskfree_phrases := config.commands.riskfree_phrases
    cb_enabled := config.circuit_breaker.enabled
    cb_max_daily_trades := config.circuit_breaker.max_daily_trades
    cb_max_daily_loss_pct := config.circuit_breaker.max_daily_loss_pct
    tf_enabled := config.trend_filter.enabled
    tf_swing_strength := config.trend_filter.swing_strength
    tf_min_swings_required := config.trend_filter.min_swings_required
    tf_ema_period := config.trend_filter.ema_period
    tf_candles_to_fetch := config.trend_filter.candles_to_fetch
    tf_require_all_three := config.trend_filter.require_all_three
    tf_log_details := config.trend_filter.log_details
    instruments := config.instruments }

/-- Python truthiness guard used by _row_to_bot_config on optional numeric
fields: `float(x) if x else None` maps both a missing value and a stored 0
to None. -/
def truthyRat (x : Option ℚ) : Option ℚ :=
  match x with
  | none => none
  | some v => if v = 0 then none else some v

/-- Effect of ChannelRepository._row_to_bot_config: rebuilds a BotConfig from
the stored rows.  The riskfree and cancel policies are materialised only when
their stored enabled flag is set, with `enabled := true`; their optional
numeric fields go through the truthiness guard. -/
def row_to_bot_config (row : ChannelRows) : BotConfig :=
  { channel_key := row.channel_key
    instruments := row.instruments
    risk_per_trade := row.risk_per_trade
    risk_tolerance := row.risk_tolerance
    final_tp_policy :=
      { kind := row.ftp_kind
        tp_index := row.ftp_tp_index
        rr_ratio := truthyRat row.ftp_rr_ratio }
    riskfree_policy :=
      if row.rf_enabled then
        some { kind := row.rf_kind
               tp_index := row.rf_tp_index
               pips := truthyRat row.rf_pips
               percent := truthyRat row.rf_percent
               enabled := true }
      else none
    cancel_policy :=
      if row.cn_enabled then
        some { kind := row.cn_kind
               tp_index := row.cn_tp_index
               percent := truthyRat row.cn_percent
               enable_for_hint :=
                 { now := row.cn_for_now
                   limit := row.cn_for_limit
                   auto := row.cn_for_auto }
               enabled := true }
      else none
    commands :=
      { close_phrases := row.cmd_close_phrases
        cancel_limit_phrases := row.cmd_cancel_limit_phrases
        riskfree_phrases := row.cmd_riskfree_phrases
        enable_close := row.cmd_enable_close
        enable_cancel_limit := row.cmd_enable_cancel_limit
        enable_riskfree := row.cmd_enable_riskfree }
    circuit_breaker :=
      { max_daily_trades := row.cb_max_daily_trades
        max_daily_loss_pct := row.cb_max_daily_loss_pct
        enabled := row.cb_enabled }
    trend_filter :=
      { enabled := row.tf_enabled
        swing_strength := row.tf_swing_strength
        min_swings_required := row.tf_min_swings_required
        ema_period := row.tf_ema_period
        candles_to_fetch := row.tf_candles_to_fetch
        require_all_three := row.tf_require_all_three
        log_details := row.tf_log_details }
    magic := row.magic_number
    max_slippage_points := row.max_slippage_points
    trade_monitor_interval_sec := row.trade_monitor_interval_sec
    id := some row.id
    telegram_id := row.telegram_id
    is_active := row.is_active }

/-- Pip distance computed by TradeRepository.log_position_closed:
`pips = |close - entry| / pip_size` when pip_size > 0 (otherwise 0), negated
when the price moved against the side (`side.lower() == "buy"` selects the
buy branch, anything else the sell branch). -/
def computePips (close_price entry_price : ℚ) (side : String) (pip_size : ℚ) : ℚ :=
  let price_diff := |close_price - entry_price|
  let pips := if pip_size > 0 then price_diff / pip_size else 0
  if strLower side = "buy" then
    if close_price > entry_price then pips else -pips
  else
    if close_price < entry_price then pips else -pips

/-- Outcome classification in TradeRepository.log_position_closed: profit if
profit_loss > 0.01, loss if profit_loss < -0.01, otherwise breakeven. -/
def classifyOutcome (profit_loss : ℚ) : TradeOutcome :=
  if profit_loss > 0.01 then .profit
  else if profit_loss < -0.01 then .loss
  else .breakeven

/-- One row of the trades table, with the columns the lifecycle writes in
TradeRepository touch.  Timestamps are abstract instants (Nat); durations are
differences of instants (Int). -/
structure TradeRow where
  trade_id : String
  channel_name : String
  msg_id : Int
  symbol : String
  side : String
  signal_time : Nat
  order_hint : String
  entry_price : Option ℚ
  sl_price : ℚ
  final_tp_price : Option ℚ
  status : TradeStatus
  trade_outcome : Option TradeOutcome
  order_type : Option String
  ticket : Option Int
  lot_size : Option ℚ
  risk_amount : Option ℚ
  risk_percent : Option ℚ
  actual_entry_price : Option ℚ
  execution_time : Option Nat
  be_moved_at : Option Nat
  time_to_be : Option Int
  canceled_at : Option Nat
  close_time : Option Nat
  close_price : Option ℚ
  profit_loss : Option ℚ
  profit_loss_pips : Option ℚ
  commission : Option ℚ
  swap : Option ℚ
  duration : Option Int
  notes : Option String
deriving DecidableEq, Repr

/-- Row created by TradeRepository.log_signal_parsed: INSERT with
status 'parsed' and all later lifecycle columns unset. -/
def log_signal_parsed_row (trade_id channel_name : String) (msg_id : Int)
    (symbol side : String) (entry : Option ℚ) (sl : ℚ) (tp : Option ℚ)
    (order_hint : String) (now : Nat) : TradeRow :=
  { trade_id := trade_id
    channel_name := channel_name
    msg_id := msg_id
    symbol := symbol
    side := strLower side
    signal_time := now
    order_hint := strLower order_hint
    entry_price := entry
    sl_price := sl
    final_tp_price := tp
    status := .parsed
    trade_outcome := none
    order_type := none
    ticket := none
    lot_size := none
    risk_amount := none
    risk_percent := none
    actual_entry_price := none
    execution_time := none
    be_moved_at := none
    time_to_be := none
    canceled_at := none
    close_time := none
    close_price := none
    profit_loss := none
    profit_loss_pips := none
    commission := none
    swap := none
    duration := none
    notes := none }

/-- Effect of TradeRepository.log_order_placed on a matching row: status
becomes 'pending' for a limit order, 'active' otherwise. -/
def log_order_placed_row (order_type : String) (ticket : Int)
    (lot_size risk_amount risk_percent : ℚ) (actual_entry : Option ℚ)
    (now : Nat) (r : TradeRow) : TradeRow :=
  { r with
    execution_time := some now
    order_type := some (strLower order_type)
    ticket := some ticket
    lot_size := some lot_size
    risk_amount := some risk_amount
    risk_percent := some risk_percent
    actual_entry_price := actual_entry
    status := if strLower order_type = "limit" then .pending else .active }

/-- Effect of TradeRepository.log_pending_to_active on a matching row. -/
def log_pending_to_active_row (fill_price : ℚ) (fill_time : Nat)
    (r : TradeRow) : TradeRow :=
  { r with
    execution_time := some fill_time
    actual_entry_price := some fill_price
    status := .active }

/-- Effect of TradeRepository.log_risk_free_moved on a matching row: records
the breakeven instant, leaving status and outcome untouched. -/
def log_risk_free_moved_row (now : Nat) (r : TradeRow) : TradeRow :=
  { r with
    be_moved_at := some now
    time_to_be := r.execution_time.map (fun t => (now : Int) - (t : Int)) }

/-- Effect of TradeRepository.log_pending_canceled on a matching row. -/
def log_pending_canceled_row (now : Nat) (reason : String)
    (r : TradeRow) : TradeRow :=
  { r with
    canceled_at := some now
    close_time := some now
    status := .canceled
    trade_outcome := some .canceled
    profit_loss := some 0
    notes := some ("Pending canceled - " ++ reason) }

/-- Effect of TradeRepository.log_trade_blocked on a matching row. -/
def log_trade_blocked_row (now : Nat) (reason : String)
    (r : TradeRow) : TradeRow :=
  { r with
    status := .blocked
    trade_outcome := some .blocked
    close_time := some now
    notes := some ("Trade blocked - " ++ reason) }

/-- Effect of TradeRepository.log_position_closed on a matching row: stores
close price/time, the computed pip distance and the classified outcome. -/
def log_position_closed_row (close_price profit_loss entry_price : ℚ)
    (side : String) (pip_size : ℚ) (open_time : Option Nat)
    (commission swap : ℚ) (now : Nat) (r : TradeRow) : TradeRow :=
  { r with
    close_time := some now
    close_price := some close_price
    status := .closed
    trade_outcome := some (classifyOutcome profit_loss)
    profit_loss := some profit_loss
    profit_loss_pips := some (computePips close_price entry_price side pip_size)
    commission := some commission
    swap := some swap
    duration := open_time.map (fun t => (now : Int) - (t : Int)) }

/-- Table-level effect of TradeRepository.log_order_placed: an
`UPDATE trades ... WHERE trade_id = %s`, which modifies matching rows in
place and never inserts. -/
def log_order_placed (trade_id : String) (order_type : String) (ticket : Int)
    (lot_size risk_amount risk_percent : ℚ) (actual_entry : Option ℚ)
    (now : Nat) (trades : List TradeRow) : List TradeRow :=
  trades.map (fun r =>
    if r.trade_id = trade_id then
      log_order_placed_row order_type ticket lot_size risk_amount risk_percent
        actual_entry now r
    else r)

/-- Lifecycle write events after the initial parse, one per TradeRepository
logging method. -/
inductive LifeEvent
  | orderPlaced (order_type : String) (ticket : Int)
      (lot_size risk_amount risk_percent : ℚ) (actual_entry : Option ℚ)
      (now : Nat)
  | pendingToActive (fill_price : ℚ) (fill_time : Nat)
  | riskFreeMoved (now : Nat)
  | pendingCanceled (now : Nat) (reason : String)
  | tradeBlocked (now : Nat) (reason : String)
  | positionClosed (close_price profit_loss entry_price : ℚ) (side : String)
      (pip_size : ℚ) (open_time : Option Nat) (commission swap : ℚ)
      (now : Nat)
deriving Repr

/-- Application of one lifecycle write to the trade's row. -/
def stepEvent (r : TradeRow) : LifeEvent → TradeRow
  | .orderPlaced ot ticket lot ra rp ae now =>
      log_order_placed_row ot ticket lot ra rp ae now r
  | .pendingToActive fp ft => log_pending_to_active_row fp ft r
  | .riskFreeMoved now => log_risk_free_moved_row now r
  | .pendingCanceled now reason => log_pending_canceled_row now reason r
  | .tradeBlocked now reason => log_trade_blocked_row now reason r
  | .positionClosed cp pl ep side psz ot com sw now =>
      log_position_closed_row cp pl ep side psz ot com sw now r

/-- Event classifiers for the lifecycle grammar of spec section 4.2. -/
def isOrderPlacedEvent : LifeEvent → Bool
  | .orderPlaced .. => true
  | _ => false

/-- Events that may occur between order placement and the terminal write. -/
def isMidEvent : LifeEvent → Bool
  | .pendingToActive .. => true
  | .riskFreeMoved .. => true
  | _ => false

/-- Terminal lifecycle writes. -/
def isTerminalEvent : LifeEvent → Bool
  | .pendingCanceled .. => true
  | .tradeBlocked .. => true
  | .positionClosed .. => true
  | _ => false

/-- Tail of a lifecycle sequence after log_order_placed: any number of
pending-to-active / risk-free-moved writes, then at most one terminal
write. -/
def validTail : List LifeEvent → Bool
  | [] => true
  | e :: rest => (isMidEvent e && validTail rest)
      || (isTerminalEvent e && rest.isEmpty)

/-- Write sequences following the state machine of spec section 4.2, applied
after log_signal_parsed: log_order_placed first, then the mid events, then
one terminal write (any prefix of that pattern is also allowed). -/
def validLifecycle : List LifeEvent → Bool
  | [] => true
  | e :: rest => isOrderPlacedEvent e && validTail rest

/-- Terminal statuses: closed, canceled, blocked, declined. -/
def isTerminalStatus : TradeStatus → Bool
  | .closed => true
  | .canceled => true
  | .blocked => true
  | .declined => true
  | _ => false

/-- Progress rank of a status: regress means a strict rank decrease towards
an earlier non-terminal state. -/
def statusRank : TradeStatus → Nat
  | .parsed => 0
  | .pending => 1
  | .active => 2
  | _ => 3

/-- A notification callback, as registered with
PostgresNotifyListener.add_callback: consumes the payload and may raise. -/
def Callback (α ε : Type) : Type := α → Except ε Unit

/-- Callback registry of PostgresNotifyListener (`self._callbacks`): a
mapping from notification channel name to the ordered list of registered
callbacks. -/
def Registry (α ε : Type) : Type := List (String × List (Callback α ε))

/-- PostgresNotifyListener.add_callback: creates the channel entry when
absent, then appends the callback to that channel's list. -/
def add_callback {α ε : Type} : Registry α ε → String → Callback α ε → Registry α ε
  | [], ch, cb => [(ch, [cb])]
  | (k, v) :: rest, ch, cb =>
      if k = ch then (k, v ++ [cb]) :: rest
      else (k, v) :: add_callback rest ch cb

/-- Lookup done by PostgresNotifyListener._handle_notification
(`self._callbacks.get(channel, [])`). -/
def getCallbacks {α ε : Type} : Registry α ε → String → List (Callback α ε)
  | [], _ => []
  | (k, v) :: rest, ch => if k = ch then v else getCallbacks rest ch

/-- Result of invoking one callback under the per-callback try/except of
_handle_notification: the exception is caught and reported, never
propagated. -/
def runCaught {α ε : Type} (cb : Callback α ε) (p : α) : Option ε :=
  match cb p with
  | .ok _ => none
  | .error e => some e

/-- The dispatch loop of _handle_notification: iterates over the callback
list in order; each iteration catches its own exception and the loop
continues regardless. -/
def dispatchLoop {α ε : Type} : List (Callback α ε) → α → List (Option ε)
  | [], _ => []
  | cb :: rest, p => runCaught cb p :: dispatchLoop rest p

/-- PostgresNotifyListener._handle_notification: dispatches the payload to
every callback registered for the notification's channel. -/
def handle_notification {α ε : Type} (reg : Registry α ε) (ch : String)
    (p : α) : List (Option ε) :=
  dispatchLoop (getCallbacks reg ch) p

/-- WebSocket fan-out manager of src/main.py, holding the registered observer
sessions in registration order. -/
structure ConnectionManager (α : Type) where
  active_connections : List α
deriving DecidableEq, Repr

/-- ConnectionManager.disconnect: removes the session when registered, a
no-op otherwise. -/
def ConnectionManager.disconnect {α : Type} [DecidableEq α]
    (m : ConnectionManager α) (s : α) : ConnectionManager α :=
  ⟨m.active_connections.erase s⟩

/-- ConnectionManager.broadcast: sends to every registered session in order
(a failed send is logged and the session collected), then disconnects every
session whose send failed.  `sendOk` tells whether a session's send_text
succeeds; the second component is the list of sessions the message was
delivered to. -/
def ConnectionManager.broadcast {α : Type} [DecidableEq α]
    (m : ConnectionManager α) (sendOk : α → Bool) :
    ConnectionManager α × List α :=
  if m.active_connections.isEmpty then (m, [])
  else
    let delivered := m.active_connections.filter (fun c => sendOk c)
    let disconnected := m.active_connections.filter (fun c => !sendOk c)
    (disconnected.foldl (fun mm s => mm.disconnect s) m, delivered)

/-- Outcome of executing a SQL query on an acquired connection: either a row
set, or an exception (bad SQL, pool exhausted, connection dropped). -/
inductive QueryExec (ρ : Type)
  | ok (rows : List ρ)
  | raises (msg : String)

/-- Outcome of executing a SQL statement for its effect. -/
inductive ExecResult
  | ok
  | raises (msg : String)

/-- Observable state of the DB singleton in src/app.py: whether the
connection pool was created, and the stored error string. -/
structure DBState where
  pool : Bool
  error : Option String
deriving DecidableEq, Repr

/-- DB._connect in src/app.py: records an error (leaving the pool unset)
when psycopg2 is missing, DATABASE_URL is empty, or pool creation raises. -/
def DB.connect (pg_ok : Bool) (database_url : String)
    (pool_result : ExecResult) : DBState :=
  if !pg_ok then ⟨false, some "psycopg2 not installed"⟩
  else if database_url = "" then ⟨false, some "DATABASE_URL not set"⟩
  else
    match pool_result with
    | .ok => ⟨true, none⟩
    | .raises e => ⟨false, some e⟩

/-- DB.ok property in src/app.py: the pool exists. -/
def DB.ok (st : DBState) : Bool := st.pool

/-- DB.q in src/app.py: returns [] when the pool is unset, and [] when the
query raises (the exception is caught and logged). -/
def DB.q {ρ : Type} (st : DBState) (exec : QueryExec ρ) : List ρ :=
  if !st.pool then []
  else
    match exec with
    | .ok rows => rows
    | .raises _ => []

/-- DB.x in src/app.py: returns False when the pool is unset, and False when
the statement raises (the exception is caught, the transaction rolled
back). -/
def DB.x (st : DBState) (exec : ExecResult) : Bool :=
  if !st.pool then false
  else
    match exec with
    | .ok => true
    | .raises _ => false

/-- get_db dependency in src/main.py: raises HTTPException 503 when the
database manager was never initialised, otherwise hands it out. -/
def get_db {μ : Type} (db_manager : Option μ) : Except Nat μ :=
  match db_manager with
  | none => .error 503
  | some m => .ok m

/-- Invariant holding between order placement and the terminal write: the
trade is pending or active and no outcome has been recorded. -/
def midInv (r : TradeRow) : Prop :=
  (r.status = .pending ∨ r.status = .active) ∧ r.trade_outcome = none

/-- Concrete stored rows of one channel, used as a pre-state for the config
round-trip claims. -/
def sampleRows : ChannelRows :=
  { id := "ch-1"
    channel_key := "gold"
    telegram_id := none
    is_active := true
    risk_per_trade := 1/50
    risk_tolerance := 1/10
    magic_number := 123456
    max_slippage_points := 20
    trade_monitor_interval_sec := 1/2
    ftp_kind := "rr"
    ftp_tp_index := some 1
    ftp_rr_ratio := some 1
    rf_enabled := false
    rf_kind := "%path"
    rf_tp_index := some 1
    rf_pips := some 10
    rf_percent := some 50
    cn_enabled := true
    cn_kind := "final_tp"
    cn_tp_index := some 1
    cn_percent := some 50
    cn_for_now := true
    cn_for_limit := true
    cn_for_auto := true
    cmd_enable_close := true
    cmd_enable_cancel_limit := true
    cmd_enable_riskfree := false
    cmd_close_phrases := []
    cmd_cancel_limit_phrases := []
    cmd_riskfree_phrases := []
    cb_enabled := true
    cb_max_daily_trades := 100
    cb_max_daily_loss_pct := 10
    tf_enabled := false
    tf_swing_strength := 2
    tf_min_swings_required := 2
    tf_ema_period := 50
    tf_candles_to_fetch := 100
    tf_require_all_three := false
    tf_log_details := true
    instruments := [⟨"XAUUSD", "XAUUSD", 2⟩] }

/-- A valid submitted configuration whose final-TP ratio is 0.0: legal for
the dataclass (Optional[float]), stored verbatim by the update. -/
def sampleSubmitted : BotConfig :=
  { channel_key := "gold"
    instruments := [⟨"XAUUSD", "XAUUSD", 2⟩]
    risk_per_trade := 1/50
    risk_tolerance := 1/10
    final_tp_policy := ⟨"rr", some 1, some 0⟩
    riskfree_policy := none
    cancel_policy := some ⟨"final_tp", some 1, some 50, ⟨true, true, true⟩, true⟩
    commands := ⟨[], [], [], true, true, false⟩
    circuit_breaker := ⟨100, 10, true⟩
    trend_filter := ⟨false, 2, 2, 50, 100, false, true⟩
    magic := 123456
    max_slippage_points := 20
    trade_monitor_interval_sec := 1/2
    id := some "ch-1"
    telegram_id := none
    is_active := true }

/-- A submitted configuration meeting the amended round-trip conditions. -/
def sampleGoodConfig : BotConfig :=
  { channel_key := "gold"
    instruments := [⟨"XAUUSD", "XAUUSD", 2⟩, ⟨"EURUSD", "EURUSD.r", 1⟩]
    risk_per_trade := 1/50
    risk_tolerance := 1/10
    final_tp_policy := ⟨"rr", some 2, some 1⟩
    riskfree_policy := some ⟨"%path", some 1, some 10, some 50, true⟩
    cancel_policy := some ⟨"final_tp", some 1, some 50, ⟨true, false, true⟩, true⟩
    commands := ⟨["close this"], ["cancel this"], [], true, true, false⟩
    circuit_breaker := ⟨50, 5, true⟩
    trend_filter := ⟨true, 2, 3, 50, 100, false, true⟩
    magic := 777
    max_slippage_points := 25
    trade_monitor_interval_sec := 1/2
    id := some "ch-1"
    telegram_id := none
    is_active := true }

/-- Concrete parsed trade row used by the close-path witnesses. -/
def sampleParsedRow : TradeRow :=
  log_signal_parsed_row "gold_7_1000" "Gold" 7 "XAUUSD" "buy" (some 2650)
    2640 (some 2660) "limit" 100

/-- Concrete lifecycle write sequence following spec section 4.2: limit
order placed, filled, moved to breakeven, closed. -/
def sampleLifecycle : List LifeEvent :=
  [ .orderPlaced "limit" 42 (1/10) 100 (1/50) none 110
  , .pendingToActive 2651 120
  , .riskFreeMoved 130
  , .positionClosed 2660 250 2650 "buy" (1/10) (some 120) 0 0 140 ]

/-- Callback that succeeds, used by the listener dispatch witness. -/
def cbOkFirst : Callback Unit String := fun _ => .ok ()

/-- Callback that raises, used by the listener dispatch witness. -/
def cbRaises : Callback Unit String := fun _ => .error "boom"

/-- Callback that succeeds, registered after the raising one. -/
def cbOkLast : Callback Unit String := fun _ => .ok ()

/-- Registry with three callbacks on the trade_changes topic, the middle one
raising. -/
def sampleRegistry : Registry Unit String :=
  add_callback
    (add_callback
      (add_callback [] "trade_changes" cbOkFirst)
      "trade_changes" cbRaises)
    "trade_changes" cbOkLast

/-- Three observer sessions for the broadcast witness. -/
def sampleManager : ConnectionManager Nat := ⟨[7, 8, 9]⟩

/-- Send behaviour where session 8's send raises. -/
def sampleSendOk : Nat → Bool := fun s => s != 8

/-- C4: classifyOutcome records profit exactly above +0.01, loss exactly
below -0.01 and breakeven in the closed band between, with 0.0 breakeven,
0.02 profit and -0.02 loss. -/
theorem outcome_classification_correct (pl : ℚ) :
    (classifyOutcome pl = .profit ↔ (0.01 : ℚ) < pl)
    ∧ (classifyOutcome pl = .loss ↔ pl < -(0.01 : ℚ))
    ∧ (classifyOutcome pl = .breakeven ↔ (-(0.01 : ℚ) ≤ pl ∧ pl ≤ (0.01 : ℚ)))
    ∧ classifyOutcome 0 = .breakeven
    ∧ classifyOutcome (0.02 : ℚ) = .profit
    ∧ classifyOutcome (-(0.02 : ℚ)) = .loss := by
  refine ⟨?_, ?_, ?_, by norm_num [classifyOutcome], by norm_num [classifyOutcome],
    by norm_num [classifyOutcome]⟩
  · unfold classifyOutcome
    split_ifs with h1 h2 <;> simp_all
  · unfold classifyOutcome
    split_ifs with h1 h2 <;> simp_all
    linarith
  · unfold classifyOutcome
    split_ifs with h1 h2 <;> simp_all

/-- C10: with pip_size ≤ 0 the close path performs no division, records a
pip distance of 0, and still writes status, outcome, profit/loss, close
price and close time. -/
theorem close_total_in_pip_size (cp pl ep : ℚ) (side : String) (psz : ℚ)
    (ot : Option Nat) (com sw : ℚ) (now : Nat) (r : TradeRow)
    (h : psz ≤ 0) :
    (log_position_closed_row cp pl ep side psz ot com sw now r).profit_loss_pips = some 0
    ∧ (log_position_closed_row cp pl ep side psz ot com sw now r).status = .closed
    ∧ (log_position_closed_row cp pl ep side psz ot com sw now r).trade_outcome
        = some (classifyOutcome pl)
    ∧ (log_position_closed_row cp pl ep side psz ot com sw now r).profit_loss = some pl
    ∧ (log_position_closed_row cp pl ep side psz ot com sw now r).close_price = some cp
    ∧ (log_position_closed_row cp pl ep side psz ot com sw now r).close_time = some now := by
  have hnp : ¬ (psz > 0) := not_lt.mpr h
  have hz : computePips cp ep side psz = 0 := by
    unfold computePips
    simp [hnp]
  refine ⟨?_, rfl, rfl, rfl, rfl, rfl⟩
  simp [log_position_closed_row, hz]

/-- Witness for C10 at pip_size = 0 on a concrete parsed row. -/
theorem close_total_in_pip_size_witness :
    ((0 : ℚ) ≤ 0)
    ∧ ((log_position_closed_row 2660 5 2650 "buy" 0 (some 120) 0 0 200 sampleParsedRow).profit_loss_pips = some 0
      ∧ (log_position_closed_row 2660 5 2650 "buy" 0 (some 120) 0 0 200 sampleParsedRow).status = .closed
      ∧ (log_position_closed_row 2660 5 2650 "buy" 0 (some 120) 0 0 200 sampleParsedRow).trade_outcome
          = some (classifyOutcome 5)
      ∧ (log_position_closed_row 2660 5 2650 "buy" 0 (some 120) 0 0 200 sampleParsedRow).profit_loss = some 5
      ∧ (log_position_closed_row 2660 5 2650 "buy" 0 (some 120) 0 0 200 sampleParsedRow).close_price = some 2660
      ∧ (log_position_closed_row 2660 5 2650 "buy" 0 (some 120) 0 0 200 sampleParsedRow).close_time = some 200) :=
  ⟨by decide,
   close_total_in_pip_size 2660 5 2650 "buy" 0 (some 120) 0 0 200 sampleParsedRow (by decide)⟩

/-- C7: replaying log_order_placed with the same trade id and ticket leaves
the number of trade rows unchanged, because the write is an UPDATE and never
inserts. -/
theorem log_order_placed_row_count (tid ot : String) (ticket : Int)
    (lot ra rp : ℚ) (ae : Option ℚ) (t1 t2 : Nat) (trades : List TradeRow) :
    (log_order_placed tid ot ticket lot ra rp ae t2
        (log_order_placed tid ot ticket lot ra rp ae t1 trades)).length
      = (log_order_placed tid ot ticket lot ra rp ae t1 trades).length := by
  simp [log_order_placed]

/-- C3: the recorded pip distance has magnitude |close - entry| / pip_size
and is negative exactly when the price moved against the side; in particular
entry 2650 / close 2660 / pipSize 0.1 gives +100 for buy and -100 for
sell. -/
theorem pips_at_close_correct (cp ep : ℚ) (side : String) (psz : ℚ)
    (h : 0 < psz) :
    |computePips cp ep side psz| = |cp - ep| / psz
    ∧ (computePips cp ep side psz < 0 ↔
        (strLower side = "buy" ∧ cp < ep) ∨ (strLower side ≠ "buy" ∧ ep < cp))
    ∧ computePips 2660 2650 "buy" (1/10) = 100
    ∧ computePips 2660 2650 "sell" (1/10) = -100 := by
  have hd : (0:ℚ) ≤ |cp - ep| / psz := div_nonneg (abs_nonneg _) h.le
  have hbuy : strLower "buy" = "buy" := by decide
  have hsell : ¬ (strLower "sell" = "buy") := by decide
  refine ⟨?_, ?_, by norm_num [computePips, hbuy], by norm_num [computePips, hsell]⟩
  · simp only [computePips, if_pos h]
    split_ifs <;> simp [abs_neg, abs_of_nonneg hd]
  · simp only [computePips, if_pos h]
    split_ifs with hb hgt hlt
    · simp only [hb, ne_eq, not_true_eq_false, false_and, or_false, true_and]
      constructor
      · intro h2; linarith
      · intro h2; linarith
    · simp only [hb, ne_eq, not_true_eq_false, false_and, or_false, true_and]
      have hle : cp ≤ ep := not_lt.mp hgt
      have habs : |cp - ep| = ep - cp := by
        rw [abs_of_nonpos (by linarith)]; ring
      rw [habs]
      constructor
      · intro h2
        have hpos : 0 < (ep - cp) / psz := by linarith
        rcases div_pos_iff.mp hpos with ⟨ha, _⟩ | ⟨_, hc⟩
        · linarith
        · linarith
      · intro h2
        have hpos : 0 < (ep - cp) / psz := div_pos (by linarith) h
        linarith
    · simp only [hb, ne_eq, not_false_eq_true, true_and, false_and, false_or]
      constructor
      · intro h2; linarith
      · intro h2; linarith
    · simp only [hb, ne_eq, not_false_eq_true, true_and, false_and, false_or]
      have hle : ep ≤ cp := not_lt.mp hlt
      have habs : |cp - ep| = cp - ep := abs_of_nonneg (by linarith)
      rw [habs]
      constructor
      · intro h2
        have hpos : 0 < (cp - ep) / psz := by linarith
        rcases div_pos_iff.mp hpos with ⟨ha, _⟩ | ⟨_, hc⟩
        · linarith
        · linarith
      · intro h2
        have hpos : 0 < (cp - ep) / psz := div_pos (by linarith) h
        linarith

/-- Witness for C3 at the spec's example: entry 2650, close 2660, buy,
pipSize 0.1. -/
theorem pips_at_close_correct_witness :
    ((0 : ℚ) < 1/10)
    ∧ (|computePips 2660 2650 "buy" (1/10)| = |(2660 : ℚ) - 2650| / (1/10)
      ∧ (computePips 2660 2650 "buy" (1/10) < 0 ↔
          (strLower "buy" = "buy" ∧ (2660 : ℚ) < 2650)
          ∨ (strLower "buy" ≠ "buy" ∧ (2650 : ℚ) < 2660))
      ∧ computePips 2660 2650 "buy" (1/10) = 100
      ∧ computePips 2660 2650 "sell" (1/10) = -100) :=
  ⟨by norm_num, pips_at_close_correct 2660 2650 "buy" (1/10) (by norm_num)⟩

/-- Helper: every status has progress rank at most 3. -/
theorem statusRank_le_three (s : TradeStatus) : statusRank s ≤ 3 := by
  cases s <;> simp [statusRank]

/-- Helper: a scanl trace starts with its start state. -/
theorem scanl_head {α β : Type} (f : β → α → β) (b : β) (l : List α) :
    (List.scanl f b l).head? = some b := by
  cases l <;> rfl

/-- Helper: mid events (fill, breakeven move) preserve the pending/active
invariant and never lower the status rank. -/
theorem midEvent_step (r : TradeRow) (e : LifeEvent)
    (he : isMidEvent e = true) (hr : midInv r) :
    midInv (stepEvent r e)
    ∧ statusRank r.status ≤ statusRank (stepEvent r e).status := by
  cases e with
  | orderPlaced ot ticket lot ra rp ae now => simp [isMidEvent] at he
  | pendingToActive fp ft =>
    refine ⟨⟨Or.inr rfl, hr.2⟩, ?_⟩
    rcases hr.1 with h | h <;>
      simp [stepEvent, log_pending_to_active_row, h, statusRank]
  | riskFreeMoved now => exact ⟨hr, le_refl _⟩
  | pendingCanceled now reason => simp [isMidEvent] at he
  | tradeBlocked now reason => simp [isMidEvent] at he
  | positionClosed cp pl ep side psz ot com sw now => simp [isMidEvent] at he

/-- Helper: terminal events write a terminal status of rank 3 together with
an outcome. -/
theorem terminalEvent_step (r : TradeRow) (e : LifeEvent)
    (he : isTerminalEvent e = true) :
    isTerminalStatus (stepEvent r e).status = true
    ∧ (stepEvent r e).trade_outcome.isSome = true
    ∧ statusRank (stepEvent r e).status = 3 := by
  cases e with
  | orderPlaced ot ticket lot ra rp ae now => simp [isTerminalEvent] at he
  | pendingToActive fp ft => simp [isTerminalEvent] at he
  | riskFreeMoved now => simp [isTerminalEvent] at he
  | pendingCanceled now reason => exact ⟨rfl, rfl, rfl⟩
  | tradeBlocked now reason => exact ⟨rfl, rfl, rfl⟩
  | positionClosed cp pl ep side psz ot com sw now => exact ⟨rfl, rfl, rfl⟩

/-- Helper: pending/active rows without an outcome satisfy the
outcome-iff-terminal condition. -/
theorem midInv_outcome (r : TradeRow) (hr : midInv r) :
    r.trade_outcome.isSome = isTerminalStatus r.status := by
  rcases hr with ⟨h1, h2⟩
  rcases h1 with h | h <;> simp [h, h2, isTerminalStatus]

/-- Helper: along a valid tail from a pending/active row, the status rank is
monotone and outcome-iff-terminal holds at every trace state. -/
theorem validTail_trace (evs : List LifeEvent) : ∀ (r : TradeRow),
    validTail evs = true → midInv r →
    List.Chain' (fun a b => statusRank a.status ≤ statusRank b.status)
      (List.scanl stepEvent r evs)
    ∧ ∀ x ∈ List.scanl stepEvent r evs,
        x.trade_outcome.isSome = isTerminalStatus x.status := by
  induction evs with
  | nil =>
    intro r _ hr
    refine ⟨List.chain'_singleton r, ?_⟩
    intro x hx
    simp only [List.scanl, List.mem_singleton] at hx
    subst hx
    exact midInv_outcome x hr
  | cons e rest ih =>
    intro r hv hr
    simp only [validTail, Bool.or_eq_true, Bool.and_eq_true,
      List.isEmpty_iff] at hv
    rcases hv with ⟨hm, hrest⟩ | ⟨ht, hrest⟩
    · have hstep := midEvent_step r e hm hr
      have ihres := ih (stepEvent r e) hrest hstep.1
      constructor
      · rw [List.scanl]
        refine List.chain'_cons'.mpr ⟨?_, ihres.1⟩
        intro y hy
        rw [scanl_head] at hy
        have hyy : stepEvent r e = y := by simpa using hy
        subst hyy
        exact hstep.2
      · intro x hx
        rw [List.scanl] at hx
        rcases List.mem_cons.mp hx with hx | hx
        · subst hx; exact midInv_outcome x hr
        · exact ihres.2 x hx
    · subst hrest
      have hterm := terminalEvent_step r e ht
      constructor
      · rw [List.scanl]
        refine List.chain'_cons'.mpr ⟨?_, List.chain'_singleton _⟩
        intro y hy
        rw [scanl_head] at hy
        have hyy : stepEvent r e = y := by simpa using hy
        subst hyy
        rw [hterm.2.2]
        exact statusRank_le_three _
      · intro x hx
        simp only [List.scanl, List.mem_cons, List.not_mem_nil, or_false] at hx
        rcases hx with hx | hx
        · subst hx; exact midInv_outcome x hr
        · subst hx; rw [hterm.1, hterm.2.1]

/-- C2: along every lifecycle write sequence that follows the state machine
of spec section 4.2 (parse, order placement, optional fill / breakeven
moves, one terminal write), the status rank never decreases and the outcome
is set exactly at terminal statuses. -/
theorem trade_lifecycle_invariant
    (tid cname : String) (msg_id : Int) (symbol side : String)
    (entry : Option ℚ) (sl : ℚ) (tp : Option ℚ) (hint : String) (t0 : Nat)
    (evs : List LifeEvent) (hv : validLifecycle evs = true) :
    List.Chain' (fun a b => statusRank a.status ≤ statusRank b.status)
      (List.scanl stepEvent
        (log_signal_parsed_row tid cname msg_id symbol side entry sl tp hint t0)
        evs)
    ∧ ∀ x ∈ List.scanl stepEvent
        (log_signal_parsed_row tid cname msg_id symbol side entry sl tp hint t0)
        evs,
        x.trade_outcome.isSome = isTerminalStatus x.status := by
  set r0 := log_signal_parsed_row tid cname msg_id symbol side entry sl tp hint t0
    with hr0
  have hstat0 : r0.status = .parsed := rfl
  have hout0 : r0.trade_outcome = none := rfl
  cases evs with
  | nil =>
    refine ⟨List.chain'_singleton r0, ?_⟩
    intro x hx
    simp only [List.scanl, List.mem_singleton] at hx
    subst hx
    rw [hout0, hstat0]
    rfl
  | cons e rest =>
    simp only [validLifecycle, Bool.and_eq_true] at hv
    obtain ⟨ho, hrest⟩ := hv
    cases e with
    | pendingToActive fp ft => simp [isOrderPlacedEvent] at ho
    | riskFreeMoved now => simp [isOrderPlacedEvent] at ho
    | pendingCanceled now reason => simp [isOrderPlacedEvent] at ho
    | tradeBlocked now reason => simp [isOrderPlacedEvent] at ho
    | positionClosed cp pl ep side2 psz ot com sw now =>
        simp [isOrderPlacedEvent] at ho
    | orderPlaced ot ticket lot ra rp ae now =>
      have hr1 : midInv (stepEvent r0 (.orderPlaced ot ticket lot ra rp ae now)) := by
        constructor
        · by_cases hlim : strLower ot = "limit"
          · exact Or.inl (by simp [stepEvent, log_order_placed_row, hlim])
          · exact Or.inr (by simp [stepEvent, log_order_placed_row, hlim])
        · exact hout0
      have tail := validTail_trace rest
        (stepEvent r0 (.orderPlaced ot ticket lot ra rp ae now)) hrest hr1
      constructor
      · rw [List.scanl]
        refine List.chain'_cons'.mpr ⟨?_, tail.1⟩
        intro y hy
        rw [scanl_head] at hy
        have hyy : stepEvent r0 (.orderPlaced ot ticket lot ra rp ae now) = y := by
          simpa using hy
        subst hyy
        rw [hstat0]
        exact Nat.zero_le _
      · intro x hx
        rw [List.scanl] at hx
        rcases List.mem_cons.mp hx with hx | hx
        · subst hx
          rw [hout0, hstat0]
          rfl
        · exact tail.2 x hx

/-- Witness for C2 on a concrete limit-order lifecycle: parse, limit order,
fill, breakeven move, close. -/
theorem trade_lifecycle_invariant_witness :
    validLifecycle sampleLifecycle = true
    ∧ (List.Chain' (fun a b => statusRank a.status ≤ statusRank b.status)
        (List.scanl stepEvent
          (log_signal_parsed_row "gold_7_1000" "Gold" 7 "XAUUSD" "buy"
            (some 2650) 2640 (some 2660) "limit" 100)
          sampleLifecycle)
      ∧ ∀ x ∈ List.scanl stepEvent
          (log_signal_parsed_row "gold_7_1000" "Gold" 7 "XAUUSD" "buy"
            (some 2650) 2640 (some 2660) "limit" 100)
          sampleLifecycle,
          x.trade_outcome.isSome = isTerminalStatus x.status) :=
  ⟨by decide,
   trade_lifecycle_invariant "gold_7_1000" "Gold" 7 "XAUUSD" "buy"
     (some 2650) 2640 (some 2660) "limit" 100 sampleLifecycle (by decide)⟩

/-- Helper: the dispatch loop produces one result per registered callback. -/
theorem dispatchLoop_length {α ε : Type} (cbs : List (Callback α ε)) (p : α) :
    (dispatchLoop cbs p).length = cbs.length := by
  induction cbs with
  | nil => rfl
  | cons cb rest ih => simp [dispatchLoop, ih]

/-- Helper: the i-th dispatch result is the caught result of the i-th
registered callback, independent of the other callbacks. -/
theorem dispatchLoop_get {α ε : Type} (cbs : List (Callback α ε)) (p : α) :
    ∀ (i : Nat) (cb : Callback α ε), cbs[i]? = some cb →
      (dispatchLoop cbs p)[i]? = some (runCaught cb p) := by
  induction cbs with
  | nil => intro i cb h; simp at h
  | cons c rest ih =>
    intro i cb h
    cases i with
    | zero =>
      simp only [List.getElem?_cons_zero, Option.some_inj] at h
      subst h
      simp [dispatchLoop]
    | succ n =>
      simp only [List.getElem?_cons_succ] at h
      simpa [dispatchLoop] using ih n cb h

/-- Helper: add_callback appends the callback to its channel's list. -/
theorem add_callback_appends {α ε : Type} (reg : Registry α ε) (ch : String)
    (cb : Callback α ε) :
    getCallbacks (add_callback reg ch cb) ch = getCallbacks reg ch ++ [cb] := by
  induction reg with
  | nil => simp [add_callback, getCallbacks]
  | cons kv rest ih =>
    obtain ⟨k, v⟩ := kv
    by_cases hk : k = ch
    · simp [add_callback, getCallbacks, hk]
    · simp [add_callback, getCallbacks, hk, ih]

/-- C5: on a notification, every callback registered for the topic is
invoked exactly once in registration order (one caught result per callback,
at the matching position); a raising callback's error is caught and the
remaining results are unaffected; and registration appends to the topic's
list, fixing that order. -/
theorem listener_dispatch_isolated {α ε : Type} (reg : Registry α ε)
    (ch : String) (p : α) :
    (handle_notification reg ch p).length = (getCallbacks reg ch).length
    ∧ (∀ (i : Nat) (cb : Callback α ε), (getCallbacks reg ch)[i]? = some cb →
        (handle_notification reg ch p)[i]? = some (runCaught cb p))
    ∧ (∀ cb, getCallbacks (add_callback reg ch cb) ch
        = getCallbacks reg ch ++ [cb]) :=
  ⟨dispatchLoop_length (getCallbacks reg ch) p,
   dispatchLoop_get (getCallbacks reg ch) p,
   fun cb => add_callback_appends reg ch cb⟩

/-- Witness for C5: with three callbacks on trade_changes whose middle one
raises, the third callback is still invoked and its result recorded. -/
theorem listener_dispatch_isolated_witness :
    (getCallbacks sampleRegistry "trade_changes")[2]? = some cbOkLast
    ∧ (handle_notification sampleRegistry "trade_changes" ())[2]?
        = some (runCaught cbOkLast ())
    ∧ handle_notification sampleRegistry "trade_changes" ()
        = [none, some "boom", none] :=
  ⟨rfl,
   (listener_dispatch_isolated sampleRegistry "trade_changes" ()).2.1 2 cbOkLast rfl,
   rfl⟩

/-- Helper: folding disconnect over a session list acts as erase on the
registry list. -/
theorem foldl_disconnect_active {α : Type} [DecidableEq α] (ys : List α) :
    ∀ (m : ConnectionManager α),
      (ys.foldl (fun mm s => mm.disconnect s) m).active_connections
        = ys.foldl (fun l s => l.erase s) m.active_connections := by
  induction ys with
  | nil => intro m; rfl
  | cons y ys ih =>
    intro m
    simp only [List.foldl_cons]
    rw [ih]
    rfl

/-- Helper: erasing a run of sessions not containing x keeps x at the head. -/
theorem foldl_erase_not_mem {α : Type} [DecidableEq α] (ys : List α) :
    ∀ (x : α) (xs : List α), x ∉ ys →
      ys.foldl (fun l s => l.erase s) (x :: xs)
        = x :: ys.foldl (fun l s => l.erase s) xs := by
  induction ys with
  | nil => intro x xs _; rfl
  | cons y ys ih =>
    intro x xs hx
    simp only [List.mem_cons, not_or] at hx
    simp only [List.foldl_cons, List.erase_cons]
    rw [if_neg (by simpa using hx.1), ih x _ hx.2]

/-- Helper: erasing exactly the sessions failing q from the full list leaves
exactly the sessions satisfying q. -/
theorem foldl_erase_filter {α : Type} [DecidableEq α] (l : List α)
    (q : α → Bool) :
    (l.filter (fun x => !q x)).foldl (fun acc s => acc.erase s) l
      = l.filter q := by
  induction l with
  | nil => rfl
  | cons x xs ih =>
    by_cases hq : q x
    · have hx : x ∉ xs.filter (fun y => !q y) := by
        intro hmem
        have := List.of_mem_filter hmem
        simp [hq] at this
      have hfilter1 : (x :: xs).filter (fun y => !q y)
          = xs.filter (fun y => !q y) := by simp [hq]
      have hfilter2 : (x :: xs).filter q = x :: xs.filter q := by simp [hq]
      rw [hfilter1, hfilter2, foldl_erase_not_mem _ x xs hx, ih]
    · have hqx : q x = false := by simpa using hq
      have hfilter1 : (x :: xs).filter (fun y => !q y)
          = x :: xs.filter (fun y => !q y) := by simp [hqx]
      have hfilter2 : (x :: xs).filter q = xs.filter q := by simp [hqx]
      rw [hfilter1, hfilter2]
      simp only [List.foldl_cons, List.erase_cons_head]
      exact ih

/-- C6: broadcast attempts delivery to every registered session (delivering
to exactly those whose send succeeds), removes every failing session from
the registry afterwards, and one session's failure never blocks delivery to
the others. -/
theorem broadcast_failure_isolated {α : Type} [DecidableEq α]
    (m : ConnectionManager α) (sendOk : α → Bool) :
    (m.broadcast sendOk).2 = m.active_connections.filter (fun c => sendOk c)
    ∧ (m.broadcast sendOk).1.active_connections
        = m.active_connections.filter (fun c => sendOk c)
    ∧ ∀ s ∈ m.active_connections,
        (sendOk s = false → s ∉ (m.broadcast sendOk).1.active_connections)
        ∧ (sendOk s = true → s ∈ (m.broadcast sendOk).2) := by
  have hsnd : (m.broadcast sendOk).2
      = m.active_connections.filter (fun c => sendOk c) := by
    unfold ConnectionManager.broadcast
    by_cases he : m.active_connections.isEmpty
    · have hnil : m.active_connections = [] := by simpa using he
      simp [he, hnil]
    · simp [he]
  have hfst : (m.broadcast sendOk).1.active_connections
      = m.active_connections.filter (fun c => sendOk c) := by
    unfold ConnectionManager.broadcast
    by_cases he : m.active_connections.isEmpty
    · have hnil : m.active_connections = [] := by simpa using he
      simp [he, hnil]
    · simp only [he, Bool.false_eq_true, if_false]
      rw [foldl_disconnect_active, foldl_erase_filter]
  refine ⟨hsnd, hfst, ?_⟩
  intro s hs
  constructor
  · intro hfail hmem
    rw [hfst] at hmem
    have := List.of_mem_filter hmem
    simp [hfail] at this
  · intro hok
    rw [hsnd]
    exact List.mem_filter.mpr ⟨hs, by simpa using hok⟩

/-- Witness for C6: of three sessions, session 8's send fails; 7 and 9 still
receive the message and 8 is absent from the registry afterwards. -/
theorem broadcast_failure_isolated_witness :
    (sampleManager.broadcast sampleSendOk).2 = [7, 9]
    ∧ (8 : Nat) ∉ (sampleManager.broadcast sampleSendOk).1.active_connections :=
  ⟨(broadcast_failure_isolated sampleManager sampleSendOk).1.trans (by decide),
   ((broadcast_failure_isolated sampleManager sampleSendOk).2.2 8 (by decide)).1
     (by decide)⟩

/-- Counterexample for C9: on a connected store, a read whose query raises
(pool exhausted) returns the same empty list as a successful read of an
empty result, with identical ok/error observables — the caller cannot
distinguish the unavailable condition from not-found. -/
theorem db_unavailable_conflated_counterexample :
    DB.q ⟨true, none⟩ (QueryExec.raises "connection pool exhausted")
      = DB.q ⟨true, none⟩ (QueryExec.ok ([] : List Nat))
    ∧ DB.ok ⟨true, none⟩ = true
    ∧ (⟨true, none⟩ : DBState).error = none :=
  ⟨rfl, rfl, rfl⟩

/-- C9 amended: reads degrade to empty results and writes to failure without
raising, both with no pool and on raising queries; a missing or invalid
connection string is distinguishable through ok/error, and main.py's get_db
surfaces the uninitialised manager as error 503 — but a raising query on a
connected pool is not distinguishable from an empty read. -/
theorem db_unavailable_degrades (ρ : Type) :
    (∀ (err : Option String) (ex : QueryExec ρ), DB.q ⟨false, err⟩ ex = [])
    ∧ (∀ (err : Option String) (ex : ExecResult), DB.x ⟨false, err⟩ ex = false)
    ∧ (∀ (st : DBState) (msg : String),
        DB.q st (QueryExec.raises msg) = ([] : List ρ))
    ∧ (∀ (st : DBState) (msg : String), DB.x st (ExecResult.raises msg) = false)
    ∧ (∀ (pr : ExecResult), DB.ok (DB.connect true "" pr) = false
        ∧ (DB.connect true "" pr).error = some "DATABASE_URL not set")
    ∧ (∀ (e : String),
        DB.ok (DB.connect true "postgresql://host/db" (ExecResult.raises e)) = false
        ∧ (DB.connect true "postgresql://host/db" (ExecResult.raises e)).error
            = some e)
    ∧ get_db (none : Option Unit) = Except.error 503 := by
  refine ⟨?_, ?_, ?_, ?_, ?_, ?_, rfl⟩
  · intro err ex; rfl
  · intro err ex; rfl
  · intro st msg
    unfold DB.q
    split <;> rfl
  · intro st msg
    unfold DB.x
    split <;> rfl
  · intro pr; exact ⟨rfl, rfl⟩
  · intro e; exact ⟨rfl, rfl⟩

/-- Helper: the truthiness guard is the identity on values that are neither
missing nor zero. -/
theorem truthyRat_eq_of_ne (x : Option ℚ) (hx : x ≠ some 0) :
    truthyRat x = x := by
  cases x with
  | none => rfl
  | some v =>
    have hv : v ≠ 0 := by
      intro h
      exact hx (by rw [h])
    simp [truthyRat, hv]

/-- C1 amended: the update-then-get round-trip preserves every sub-policy
field provided the optional numeric fields (final-TP rr_ratio, risk-free
pips/percent, cancel percent) are not zero, every submitted risk-free or
cancel policy is enabled, and an omitted risk-free or cancel policy
corresponds to a stored row that is already disabled. -/
theorem config_roundtrip_amended (st : ChannelRows) (cfg : BotConfig)
    (h1 : cfg.final_tp_policy.rr_ratio ≠ some 0)
    (h2 : cfg.riskfree_policy.all
        (fun p => p.enabled && p.pips != some 0 && p.percent != some 0) = true)
    (h3 : cfg.riskfree_policy = none → st.rf_enabled = false)
    (h4 : cfg.cancel_policy.all
        (fun p => p.enabled && p.percent != some 0) = true)
    (h5 : cfg.cancel_policy = none → st.cn_enabled = false) :
    (row_to_bot_config (update_channel_config st cfg)).final_tp_policy
        = cfg.final_tp_policy
    ∧ (row_to_bot_config (update_channel_config st cfg)).riskfree_policy
        = cfg.riskfree_policy
    ∧ (row_to_bot_config (update_channel_config st cfg)).cancel_policy
        = cfg.cancel_policy
    ∧ (row_to_bot_config (update_channel_config st cfg)).commands
        = cfg.commands
    ∧ (row_to_bot_config (update_channel_config st cfg)).circuit_breaker
        = cfg.circuit_breaker
    ∧ (row_to_bot_config (update_channel_config st cfg)).trend_filter
        = cfg.trend_filter
    ∧ (row_to_bot_config (update_channel_config st cfg)).instruments
        = cfg.instruments := by
  rcases hrf : cfg.riskfree_policy with _ | ⟨pk, pt, pp, pc, pe⟩ <;>
    rcases hcn : cfg.cancel_policy with _ | ⟨qk, qt, qp, ⟨qn, ql, qa⟩, qe⟩
  · have hse := h3 hrf
    have hce := h5 hcn
    refine ⟨?_, ?_, ?_, ?_, ?_, ?_, ?_⟩ <;>
      simp [update_channel_config, row_to_bot_config, hrf, hcn, hse, hce,
        truthyRat_eq_of_ne _ h1]
  · have hse := h3 hrf
    rw [hcn] at h4
    simp only [Option.all, Bool.and_eq_true, bne_iff_ne, ne_eq] at h4
    obtain ⟨hqe, hqp⟩ := h4
    refine ⟨?_, ?_, ?_, ?_, ?_, ?_, ?_⟩ <;>
      simp [update_channel_config, row_to_bot_config, hrf, hcn, hse, hqe,
        truthyRat_eq_of_ne _ h1, truthyRat_eq_of_ne _ hqp]
  · have hce := h5 hcn
    rw [hrf] at h2
    simp only [Option.all, Bool.and_eq_true, bne_iff_ne, ne_eq] at h2
    obtain ⟨⟨hpe, hpp⟩, hpc⟩ := h2
    refine ⟨?_, ?_, ?_, ?_, ?_, ?_, ?_⟩ <;>
      simp [update_channel_config, row_to_bot_config, hrf, hcn, hce, hpe,
        truthyRat_eq_of_ne _ h1, truthyRat_eq_of_ne _ hpp,
        truthyRat_eq_of_ne _ hpc]
  · rw [hrf] at h2
    rw [hcn] at h4
    simp only [Option.all, Bool.and_eq_true, bne_iff_ne, ne_eq] at h2 h4
    obtain ⟨⟨hpe, hpp⟩, hpc⟩ := h2
    obtain ⟨hqe, hqp⟩ := h4
    refine ⟨?_, ?_, ?_, ?_, ?_, ?_, ?_⟩ <;>
      simp [update_channel_config, row_to_bot_config, hrf, hcn, hpe, hqe,
        truthyRat_eq_of_ne _ h1, truthyRat_eq_of_ne _ hpp,
        truthyRat_eq_of_ne _ hpc, truthyRat_eq_of_ne _ hqp]

/-- Counterexample for C1 as stated: submitting a valid configuration whose
final-TP rr_ratio is 0.0 and reading it back yields a different final-TP
policy (the stored 0.0 is read back as missing by the truthiness guard). -/
theorem config_roundtrip_counterexample :
    (row_to_bot_config (update_channel_config sampleRows sampleSubmitted)).final_tp_policy
      ≠ sampleSubmitted.final_tp_policy := by decide

/-- Witness for the amended C1 on a concrete enabled configuration. -/
theorem config_roundtrip_amended_witness :
    (sampleGoodConfig.final_tp_policy.rr_ratio ≠ some 0)
    ∧ ((row_to_bot_config (update_channel_config sampleRows sampleGoodConfig)).final_tp_policy
          = sampleGoodConfig.final_tp_policy
      ∧ (row_to_bot_config (update_channel_config sampleRows sampleGoodConfig)).riskfree_policy
          = sampleGoodConfig.riskfree_policy
      ∧ (row_to_bot_config (update_channel_config sampleRows sampleGoodConfig)).cancel_policy
          = sampleGoodConfig.cancel_policy
      ∧ (row_to_bot_config (update_channel_config sampleRows sampleGoodConfig)).commands
          = sampleGoodConfig.commands
      ∧ (row_to_bot_config (update_channel_config sampleRows sampleGoodConfig)).circuit_breaker
          = sampleGoodConfig.circuit_breaker
      ∧ (row_to_bot_config (update_channel_config sampleRows sampleGoodConfig)).trend_filter
          = sampleGoodConfig.trend_filter
      ∧ (row_to_bot_config (update_channel_config sampleRows sampleGoodConfig)).instruments
          = sampleGoodConfig.instruments) :=
  ⟨by decide,
   config_roundtrip_amended sampleRows sampleGoodConfig (by decide) (by decide)
     (by decide) (by decide) (by decide)⟩
